import Mathlib

/-!
Shallow embedding of the HubSpot CRM skill (TypeScript) for specification
checking.  The remote CRM is modelled by explicit response values threaded
through each function; `fetch` outcomes (thrown transport error, non-success
HTTP status, success body) appear as constructors of small response types.
JavaScript-specific semantics are modelled explicitly:
  * `undefined` becomes `Option.none`;
  * string truthiness (`!x`, `x || d`, `if (x)`) treats `""` like `undefined`;
  * `x ?? d` (nullish coalescing) only defaults on `undefined`;
  * `new Date(s).getTime()` is an oracle parameter `dp : String → Int`
    (the time value in milliseconds); on a string JavaScript cannot parse
    the real value is `NaN`, which makes the sort comparator inconsistent
    and leaves the order implementation-defined per ECMAScript, so the model
    covers runs in which every present timestamp parses;
  * `Array.prototype.sort` with a consistent comparator is required (ES2019)
    to be stable; for a total preorder the stable sorted permutation is
    unique, so `List.insertionSort` with the nonstrict "newer or equal first"
    relation is an exact model of it.
-/

namespace HubSpotCRM

/-- JS truthiness of an optional string: `undefined` and `""` are falsy. -/
def truthy : Option String → Bool
  | none => false
  | some s => s ≠ ""

/-- `x || d` on an optional string, with JS falsy semantics. -/
def orFalsy (o : Option String) (d : String) : String :=
  match o with
  | some s => if s = "" then d else s
  | none => d

/-- `env("HUBSPOT_PRIVATE_APP_TOKEN")` may be unset; `if (!TOKEN)` treats an
unset variable and the empty string alike. -/
def tokenMissing (token : Option String) : Bool :=
  match token with
  | none => true
  | some s => s = ""

/-- The error message every entry point returns when the token is missing. -/
def missingTokenMessage : String := "Missing HUBSPOT_PRIVATE_APP_TOKEN in environment."

/-- `EngagementType` from engagements.ts. -/
inductive EngagementType
  | calls
  | emails
  | notes
  | tasks
  | meetings
deriving DecidableEq

/-- One normalized engagement item (element type of `EngagementSummary.items`). -/
structure EngagementInfo where
  id : String
  createdAt : Option String := none
  subject : Option String := none
  body : Option String := none
  status : Option String := none
  direction : Option String := none
deriving DecidableEq

/-- A raw engagement record as returned by the details endpoint:
`{ id?: string, properties?: Record<string, string> }` (the property map is
modelled as an association list). -/
structure RawRecord where
  id : Option String := none
  properties : Option (List (String × String)) := none
deriving DecidableEq

/-- `getPropertiesForType` from engagements.ts. -/
def getPropertiesForType : EngagementType → List String
  | .calls =>
      ["hs_call_title", "hs_call_body", "hs_call_status", "hs_call_direction", "hs_createdate"]
  | .emails =>
      ["hs_email_subject", "hs_email_text", "hs_email_status", "hs_email_direction",
        "hs_createdate"]
  | .notes => ["hs_note_body", "hs_createdate"]
  | .tasks => ["hs_task_subject", "hs_task_body", "hs_task_status", "hs_createdate"]
  | .meetings => ["hs_meeting_title", "hs_meeting_body", "hs_meeting_outcome", "hs_createdate"]

/-- `extractEngagementInfo` from engagements.ts.  The TS `switch` covers all
five kinds, so its `default` arm is unreachable and has no Lean counterpart.
A property absent from the map leaves the corresponding field `none`. -/
def extractEngagementInfo (type : EngagementType) (data : RawRecord) : EngagementInfo :=
  let props := data.properties.getD []
  let id := data.id.getD ""
  match type with
  | .calls =>
      { id := id
        createdAt := props.lookup "hs_createdate"
        subject := props.lookup "hs_call_title"
        body := props.lookup "hs_call_body"
        status := props.lookup "hs_call_status"
        direction := props.lookup "hs_call_direction" }
  | .emails =>
      { id := id
        createdAt := props.lookup "hs_createdate"
        subject := props.lookup "hs_email_subject"
        body := props.lookup "hs_email_text"
        status := props.lookup "hs_email_status"
        direction := props.lookup "hs_email_direction" }
  | .notes =>
      { id := id
        createdAt := props.lookup "hs_createdate"
        body := props.lookup "hs_note_body" }
  | .tasks =>
      { id := id
        createdAt := props.lookup "hs_createdate"
        subject := props.lookup "hs_task_subject"
        body := props.lookup "hs_task_body"
        status := props.lookup "hs_task_status" }
  | .meetings =>
      { id := id
        createdAt := props.lookup "hs_createdate"
        subject := props.lookup "hs_meeting_title"
        body := props.lookup "hs_meeting_body"
        status := props.lookup "hs_meeting_outcome" }

/-- Response of `GET .../associations/{type}`.  `failure` covers both a thrown
transport error and a non-success HTTP status (both branches of the source
yield `[]`); `success` carries the optional `results` array, each entry with
its optional `toObjectId`. -/
inductive AssocResp
  | failure
  | success (results : Option (List (Option String)))

/-- `getContactAssociations` from engagements.ts:
`(body.results ?? []).map((r) => r.toObjectId ?? "").filter(Boolean)`. -/
def getContactAssociations : AssocResp → List String
  | .failure => []
  | .success results =>
      ((results.getD []).map (fun r => r.getD "")).filter (fun s => s ≠ "")

/-- Contact identity properties returned by the contact fetch. -/
structure ContactProps where
  email : Option String := none
  firstname : Option String := none
  lastname : Option String := none
deriving DecidableEq

/-- Parsed body of `GET /crm/v3/objects/contacts/{id}`. -/
structure ContactData where
  id : Option String := none
  properties : Option ContactProps := none
deriving DecidableEq

/-- Outcome of the contact identity fetch: non-success status with the body's
optional `message`; a thrown transport error (caught by the outer
`try` of `getContactActivitySummary`); or a success body. -/
inductive ContactFetchOutcome
  | httpError (message : Option String)
  | thrown (message : String)
  | success (data : ContactData)

/-- The remote world seen by one `getContactActivitySummary` run. -/
structure HubSpotEnv where
  contactResp : ContactFetchOutcome
  assocResp : EngagementType → AssocResp
  detailResp : EngagementType → String → Option RawRecord

/-- `EngagementSummary` from engagements.ts. -/
structure EngagementSummary where
  type : EngagementType
  count : Nat
  items : List EngagementInfo
deriving DecidableEq

/-- The `summary` object of a successful `ContactActivitySummaryResult`. -/
structure SummaryData where
  calls : EngagementSummary
  emails : EngagementSummary
  notes : EngagementSummary
  tasks : EngagementSummary
  meetings : EngagementSummary
  totalEngagements : Nat
  recentActivity : String
deriving DecidableEq

/-- `ContactActivitySummaryResult` from engagements.ts. -/
structure ContactActivitySummaryResult where
  ok : Bool
  contactId : Option String := none
  contactName : Option String := none
  email : Option String := none
  summary : Option SummaryData := none
  error : Option String := none
deriving DecidableEq

/-- The per-kind processing order of the aggregation loop. -/
def engagementTypes : List EngagementType := [.calls, .emails, .notes, .tasks, .meetings]

/-- One iteration of the aggregation loop for kind `t`: fetch the association
ids, take the first 5 (the sample cap), fetch details for each, keep the hits
(normalized), and record the count as the full association-list length. -/
def processKind (env : HubSpotEnv) (t : EngagementType) : EngagementSummary :=
  let associationIds := getContactAssociations (env.assocResp t)
  let recentIds := associationIds.take 5
  let items :=
    recentIds.filterMap (fun engId => (env.detailResp t engId).map (extractEngagementInfo t))
  { type := t, count := associationIds.length, items := items }

/-- An entry of the `allItems` merge list: `{ type, createdAt }`. -/
structure TimelineItem where
  type : EngagementType
  createdAt : Option String := none
deriving DecidableEq

/-- `allItems` before sorting: each kind's fetched items in per-kind
processing order (calls, emails, notes, tasks, meetings). -/
def timelineOf (env : HubSpotEnv) : List TimelineItem :=
  (engagementTypes.map (fun t =>
    (processKind env t).items.map
      (fun info => { type := t, createdAt := info.createdAt }))).flatten

/-- The comparator's key: `a.createdAt ? new Date(a.createdAt).getTime() : 0`.
A falsy `createdAt` (absent or `""`) is keyed `0` (the epoch); otherwise the
oracle `dp` gives the parsed time value. -/
def sortKey (dp : String → Int) (c : Option String) : Int :=
  match c with
  | none => 0
  | some s => if s = "" then 0 else dp s

/-- Item `a` may precede item `b` in the sorted output: the comparator
`dateB - dateA` is nonpositive, i.e. `b`'s key is at most `a`'s. -/
def newerFirst (dp : String → Int) (a b : TimelineItem) : Prop :=
  sortKey dp b.createdAt ≤ sortKey dp a.createdAt

instance (dp : String → Int) : DecidableRel (newerFirst dp) :=
  fun _ _ => Int.decLe _ _

/-- `allItems.sort((a, b) => dateB - dateA)`: the stable descending sort of
the merged list (see the module comment for why stable insertion sort models
the ES2019 `Array.prototype.sort` exactly here). -/
def sortedTimeline (env : HubSpotEnv) (dp : String → Int) : List TimelineItem :=
  (timelineOf env).insertionSort (newerFirst dp)

def engagementTypeName : EngagementType → String
  | .calls => "calls"
  | .emails => "emails"
  | .notes => "notes"
  | .tasks => "tasks"
  | .meetings => "meetings"

/-- The "no activity" sentinel string. -/
def noActivitySentinel : String := "No recent activity found"

/-- `recentActivity`: head of the sorted merge list, or the sentinel when the
list is empty.  `createdAt ?? "unknown date"` is nullish coalescing, so an
empty-string timestamp is rendered as is. -/
def recentActivityText (sorted : List TimelineItem) : String :=
  match sorted with
  | [] => noActivitySentinel
  | item :: _ =>
      "Most recent: " ++ engagementTypeName item.type ++ " on " ++
        item.createdAt.getD "unknown date"

/-- `[firstname, lastname].filter(Boolean).join(" ") || "Unknown"`. -/
def contactDisplayName (props : Option ContactProps) : String :=
  let joined := String.intercalate " "
    (([props.bind ContactProps.firstname, props.bind ContactProps.lastname].filterMap id).filter
      (fun s => s ≠ ""))
  if joined = "" then "Unknown" else joined

/-- The `summary` object assembled in the success branch of
`getContactActivitySummary`. -/
def buildSummaryData (env : HubSpotEnv) (dp : String → Int) : SummaryData :=
  let summaries := processKind env
  { calls := summaries .calls
    emails := summaries .emails
    notes := summaries .notes
    tasks := summaries .tasks
    meetings := summaries .meetings
    totalEngagements :=
      (summaries .calls).count + (summaries .emails).count + (summaries .notes).count +
        (summaries .tasks).count + (summaries .meetings).count
    recentActivity := recentActivityText (sortedTimeline env dp) }

/-- `getContactActivitySummary` from engagements.ts. -/
def getContactActivitySummary (token : Option String) (contactId : String)
    (env : HubSpotEnv) (dp : String → Int) : ContactActivitySummaryResult :=
  if tokenMissing token then
    { ok := false, error := some missingTokenMessage }
  else if contactId = "" then
    { ok := false, error := some "Contact ID is required." }
  else
    match env.contactResp with
    | .httpError message =>
        { ok := false, error := some (message.getD "Contact not found") }
    | .thrown message => { ok := false, error := some message }
    | .success contactData =>
        { ok := true
          contactId := contactData.id
          contactName := some (contactDisplayName contactData.properties)
          email := contactData.properties.bind ContactProps.email
          summary := some (buildSummaryData env dp) }

/-- Kind-indexed view of the five per-kind summaries. -/
def SummaryData.kind (s : SummaryData) : EngagementType → EngagementSummary
  | .calls => s.calls
  | .emails => s.emails
  | .notes => s.notes
  | .tasks => s.tasks
  | .meetings => s.meetings

/-- `searchContactByEmail` response: a thrown transport error, or a parsed
body (`res.ok` flag, optional `results`, optional `message`, and the raw JSON
text for the `?? JSON.stringify(body)` fallback). -/
structure SearchHit where
  id : Option String := none
  properties : Option (List (String × String)) := none
deriving DecidableEq

inductive SearchResp
  | thrown (message : String)
  | http (resOk : Bool) (results : Option (List SearchHit)) (message : Option String)
      (raw : String)

structure SearchContactResult where
  ok : Bool
  contactId : Option String := none
  contact : Option SearchHit := none
  error : Option String := none
deriving DecidableEq

/-- `searchContactByEmail` from engagements.ts.  The `email` argument only
feeds the request body, which the response model already abstracts. -/
def searchContactByEmail (token : Option String) (email : String)
    (resp : SearchResp) : SearchContactResult :=
  if tokenMissing token then { ok := false, error := some missingTokenMessage }
  else
    let _ := email
    match resp with
    | .thrown message => { ok := false, error := some message }
    | .http resOk results message raw =>
        if resOk then
          match results with
          | some (hit :: _) => { ok := true, contactId := hit.id, contact := some hit }
          | _ => { ok := true }
        else { ok := false, error := some (message.getD raw) }

/-- Input of `createContact` / the optional contact fields. -/
structure CreateContactInput where
  email : Option String := none
  firstname : Option String := none
  lastname : Option String := none
  phone : Option String := none
  company : Option String := none

/-- `if (input.x) properties.x = input.x` — a property is added only when the
field is truthy (present and nonempty). -/
def optionalProp (key : String) (v : Option String) : List (String × String) :=
  match v with
  | some s => if s = "" then [] else [(key, s)]
  | none => []

/-- The `properties` object built by `createContact`, in insertion order. -/
def contactProperties (input : CreateContactInput) : List (String × String) :=
  optionalProp "email" input.email ++ optionalProp "firstname" input.firstname ++
    optionalProp "lastname" input.lastname ++ optionalProp "phone" input.phone ++
    optionalProp "company" input.company

/-- Response of a mutating call (POST/PATCH): thrown transport error;
non-success status with the body's optional `message` and raw JSON text;
or success with the body's optional `id` and `properties`. -/
inductive MutationResp
  | thrown (message : String)
  | httpError (status : Nat) (message : Option String) (raw : String)
  | success (id : Option String) (properties : Option (List (String × String)))

/-- `CreateContactResult` (also the result shape of `updateContact`). -/
structure CreateContactResult where
  ok : Bool
  id : Option String := none
  properties : Option (List (String × String)) := none
  error : Option String := none
  status : Option Nat := none
deriving DecidableEq

/-- `createContact` from createContact.ts. -/
def createContact (token : Option String) (input : CreateContactInput)
    (resp : MutationResp) : CreateContactResult :=
  if tokenMissing token then { ok := false, error := some missingTokenMessage }
  else
    let properties := contactProperties input
    if properties.length = 0 then { ok := false, error := some "No properties provided." }
    else
      match resp with
      | .thrown message => { ok := false, error := some message }
      | .httpError st message raw =>
          { ok := false, status := some st, error := some (message.getD raw) }
      | .success id props => { ok := true, id := id, properties := some (props.getD []) }

/-- Input of `updateContact`. -/
structure UpdateContactInput where
  contactId : String
  email : Option String := none
  firstname : Option String := none
  lastname : Option String := none
  phone : Option String := none
  company : Option String := none

/-- The optional contact fields of an `UpdateContactInput`. -/
def UpdateContactInput.fields (input : UpdateContactInput) : CreateContactInput :=
  { email := input.email, firstname := input.firstname, lastname := input.lastname,
    phone := input.phone, company := input.company }

/-- `updateContact` from createContact.ts. -/
def updateContact (token : Option String) (input : UpdateContactInput)
    (resp : MutationResp) : CreateContactResult :=
  if tokenMissing token then { ok := false, error := some missingTokenMessage }
  else if input.contactId = "" then { ok := false, error := some "Contact ID is required." }
  else
    let properties := contactProperties input.fields
    if properties.length = 0 then
      { ok := false, error := some "No properties to update provided." }
    else
      match resp with
      | .thrown message => { ok := false, error := some message }
      | .httpError st message raw =>
          { ok := false, status := some st, error := some (message.getD raw) }
      | .success id props => { ok := true, id := id, properties := some (props.getD []) }

/-- Input of `updateDealStage`. -/
structure UpdateDealStageInput where
  dealId : String
  dealstage : String
  notes : Option String := none

/-- `UpdateDealStageResult` from deals.ts. -/
structure UpdateDealStageResult where
  ok : Bool
  id : Option String := none
  properties : Option (List (String × String)) := none
  error : Option String := none
  status : Option Nat := none
deriving DecidableEq

/-- `updateDealStage` (the module function) from deals.ts. -/
def updateDealStage (token : Option String) (input : UpdateDealStageInput)
    (resp : MutationResp) : UpdateDealStageResult :=
  if tokenMissing token then { ok := false, error := some missingTokenMessage }
  else if input.dealId = "" then { ok := false, error := some "Deal ID is required." }
  else if input.dealstage = "" then { ok := false, error := some "Deal stage is required." }
  else
    match resp with
    | .thrown message => { ok := false, error := some message }
    | .httpError st message raw =>
        { ok := false, status := some st, error := some (message.getD raw) }
    | .success id props => { ok := true, id := id, properties := some (props.getD []) }

/-- A pipeline stage as returned by `GET /crm/v3/pipelines/deals`. -/
structure PipelineStage where
  id : String
  label : String
  displayOrder : Int
deriving DecidableEq

structure Pipeline where
  id : String
  label : String
  stages : List PipelineStage
deriving DecidableEq

inductive PipelinesResp
  | thrown (message : String)
  | httpError (message : Option String) (raw : String)
  | success (results : Option (List Pipeline))

structure GetPipelinesResult where
  ok : Bool
  pipelines : Option (List Pipeline) := none
  error : Option String := none
deriving DecidableEq

/-- `getDealPipelines` from deals.ts. -/
def getDealPipelines (token : Option String) (resp : PipelinesResp) : GetPipelinesResult :=
  if tokenMissing token then { ok := false, error := some missingTokenMessage }
  else
    match resp with
    | .thrown message => { ok := false, error := some message }
    | .httpError message raw => { ok := false, error := some (message.getD raw) }
    | .success results => { ok := true, pipelines := some (results.getD []) }

/-- Response of the deal lookup `GET /crm/v3/objects/deals/{id}`; the success
body is an opaque JSON object, modelled as an association list. -/
inductive DealLookupResp
  | thrown (message : String)
  | httpError (message : Option String) (raw : String)
  | success (deal : List (String × String))

structure DealLookupResult where
  ok : Bool
  deal : Option (List (String × String)) := none
  error : Option String := none
deriving DecidableEq

/-- The local `getDealById` helper of updateDealStage.tool.ts. -/
def getDealById : DealLookupResp → DealLookupResult
  | .thrown message => { ok := false, error := some message }
  | .httpError message raw => { ok := false, error := some (message.getD raw) }
  | .success deal => { ok := true, deal := some deal }

/-- Result envelope of `UpdateDealStageTool.execute`. -/
structure UpdateDealStageToolResult where
  ok : Bool
  id : Option String := none
  properties : Option (List (String × String)) := none
  status : Option Nat := none
  error : Option String := none
  message : Option String := none
  previousDeal : Option (List (String × String)) := none
deriving DecidableEq

/-- `UpdateDealStageTool.execute` from updateDealStage.tool.ts: token check,
then the deal lookup; on lookup failure an error envelope naming the deal id
(the `getD "undefined"` fallback renders the template literal on an absent
`error` field, which the lookup failure branches never produce); otherwise
the PATCH, whose success envelope carries the pre-update deal. -/
def updateDealStageToolExecute (token : Option String) (input : UpdateDealStageInput)
    (lookupResp : DealLookupResp) (patchResp : MutationResp) : UpdateDealStageToolResult :=
  if tokenMissing token then { ok := false, error := some missingTokenMessage }
  else
    let currentDeal := getDealById lookupResp
    if currentDeal.ok then
      match patchResp with
      | .thrown message => { ok := false, error := some message }
      | .httpError st message raw =>
          { ok := false, status := some st, error := some (message.getD raw) }
      | .success id props =>
          { ok := true
            id := id
            properties := some (props.getD [])
            message := some
              ("Successfully updated deal stage to \x27" ++ input.dealstage ++ "\x27")
            previousDeal := currentDeal.deal }
    else
      { ok := false
        error := some ("Could not find deal with ID " ++ input.dealId ++ ": " ++
          (currentDeal.error.getD "undefined")) }

/-- Input of `CreateContactFromChatTool.execute` (`email` is required by the
schema and validated as a nonempty well-formed address). -/
structure CreateContactFromChatInput where
  email : String
  firstname : Option String := none
  lastname : Option String := none
  phone : Option String := none
  company : Option String := none
  chatSummary : Option String := none

/-- Response of the chat tool's local search helper: only a thrown transport
error is an error; a parsed body carries `res.ok` and optional `results`. -/
inductive ChatSearchResp
  | thrown (message : String)
  | http (resOk : Bool) (results : Option (List SearchHit))

/-- The local `searchContactByEmail` of createContactFromChat.tool.ts: a
non-success status (or a success with no results) yields `ok` with no
`contactId` rather than an error. -/
def chatToolSearch : ChatSearchResp → SearchContactResult
  | .thrown message => { ok := false, error := some message }
  | .http resOk results =>
      match results with
      | some (hit :: _) =>
          if resOk then { ok := true, contactId := hit.id, contact := some hit }
          else { ok := true }
      | _ => { ok := true }

/-- Response of the chat tool's local `createContact` helper. -/
inductive ChatCreateResp
  | thrown (message : String)
  | httpError (message : Option String) (raw : String)
  | success (id : Option String) (properties : Option (List (String × String)))

structure ChatCreateResult where
  ok : Bool
  id : Option String := none
  properties : Option (List (String × String)) := none
  error : Option String := none
deriving DecidableEq

/-- The local `createContact` of createContactFromChat.tool.ts. -/
def chatToolCreate : ChatCreateResp → ChatCreateResult
  | .thrown message => { ok := false, error := some message }
  | .httpError message raw => { ok := false, error := some (message.getD raw) }
  | .success id props => { ok := true, id := id, properties := some (props.getD []) }

/-- Result envelope of `CreateContactFromChatTool.execute`. -/
structure CreateContactFromChatResult where
  ok : Bool
  alreadyExists : Option Bool := none
  contactId : Option String := none
  id : Option String := none
  properties : Option (List (String × String)) := none
  message : Option String := none
  contact : Option SearchHit := none
  chatSummary : Option String := none
  error : Option String := none
deriving DecidableEq

/-- The `properties` object the chat tool sends to the create endpoint:
`email` unconditionally first, then the truthy optional fields. -/
def chatProperties (input : CreateContactFromChatInput) : List (String × String) :=
  ("email", input.email) ::
    (optionalProp "firstname" input.firstname ++ optionalProp "lastname" input.lastname ++
      optionalProp "phone" input.phone ++ optionalProp "company" input.company)

/-- Mapping of the create helper's result into the tool envelope (the
`{...result, alreadyExists: false, message, chatSummary}` spread on success,
the raw result on failure). -/
def chatCreatePath (input : CreateContactFromChatInput)
    (result : ChatCreateResult) : CreateContactFromChatResult :=
  if result.ok then
    { ok := result.ok
      id := result.id
      properties := result.properties
      alreadyExists := some false
      message := some ("Successfully created new contact from chat: " ++ input.email)
      chatSummary := input.chatSummary }
  else
    { ok := result.ok, id := result.id, properties := result.properties,
      error := result.error }

/-- `CreateContactFromChatTool.execute` from createContactFromChat.tool.ts.
`createResp` is a function of the request `properties`, modelling that the
create request carries the properties object built by the tool. -/
def createContactFromChatExecute (token : Option String)
    (input : CreateContactFromChatInput) (searchResp : ChatSearchResp)
    (createResp : List (String × String) → ChatCreateResp) : CreateContactFromChatResult :=
  if tokenMissing token then { ok := false, error := some missingTokenMessage }
  else
    let existingContact := chatToolSearch searchResp
    if existingContact.ok && truthy existingContact.contactId then
      { ok := true
        alreadyExists := some true
        contactId := existingContact.contactId
        message := some ("Contact with email " ++ input.email ++ " already exists in HubSpot")
        contact := existingContact.contact }
    else
      chatCreatePath input (chatToolCreate (createResp (chatProperties input)))

/-- `- ${call.subject || "Call"} (${call.createdAt || "unknown date"})`. -/
def formatCallLine (call : EngagementInfo) : String :=
  "- " ++ orFalsy call.subject "Call" ++ " (" ++ orFalsy call.createdAt "unknown date" ++ ")"

def formatEmailLine (email : EngagementInfo) : String :=
  "- " ++ orFalsy email.subject "Email" ++ " (" ++ orFalsy email.createdAt "unknown date" ++ ")"

def formatMeetingLine (meeting : EngagementInfo) : String :=
  "- " ++ orFalsy meeting.subject "Meeting" ++ " (" ++
    orFalsy meeting.createdAt "unknown date" ++ ")"

def formatTaskLine (task : EngagementInfo) : String :=
  "- " ++ orFalsy task.subject "Task" ++ " - " ++ orFalsy task.status "unknown status"

/-- Note line: `note.body?.substring(0, 100) || "No content"` followed by the
ellipsis marker when the body is truthy and longer than 100 characters
(character counts model UTF-16 code units as Unicode scalars; they agree on
the Basic Multilingual Plane). -/
def formatNoteLine (note : EngagementInfo) : String :=
  let preview := orFalsy (note.body.map (fun b => b.take 100)) "No content"
  let suffix :=
    match note.body with
    | some b => if b ≠ "" ∧ b.length > 100 then "..." else ""
    | none => ""
  "- " ++ preview ++ suffix

/-- The `lines` array built by `generateActivitySummaryText` when a summary
is present, in push order. -/
def activityLines (result : ContactActivitySummaryResult) (s : SummaryData) : List String :=
  ["## Activity Summary for " ++ orFalsy result.contactName "Unknown" ++ " (" ++
      orFalsy result.email "no email" ++ ")",
    "",
    "**Total Engagements:** " ++ toString s.totalEngagements,
    "**" ++ s.recentActivity ++ "**",
    ""] ++
  (if s.calls.count > 0 then
    ("### Calls (" ++ toString s.calls.count ++ " total)") ::
      ((s.calls.items.take 3).map formatCallLine ++ [""])
  else []) ++
  (if s.emails.count > 0 then
    ("### Emails (" ++ toString s.emails.count ++ " total)") ::
      ((s.emails.items.take 3).map formatEmailLine ++ [""])
  else []) ++
  (if s.meetings.count > 0 then
    ("### Meetings (" ++ toString s.meetings.count ++ " total)") ::
      ((s.meetings.items.take 3).map formatMeetingLine ++ [""])
  else []) ++
  (if s.tasks.count > 0 then
    ("### Tasks (" ++ toString s.tasks.count ++ " total)") ::
      ((s.tasks.items.take 3).map formatTaskLine ++ [""])
  else []) ++
  (if s.notes.count > 0 then
    ("### Notes (" ++ toString s.notes.count ++ " total)") ::
      (s.notes.items.take 2).map formatNoteLine
  else [])

/-- `generateActivitySummaryText` from the skill module. -/
def generateActivitySummaryText (result : ContactActivitySummaryResult) : String :=
  match result.summary with
  | none => "No activity summary available"
  | some s => String.intercalate "\n" (activityLines result s)

/-- Spec-side description of one rendered kind section (§4.5): a header naming
the kind and its count, the capped item lines, a trailing blank line except
for notes, and nothing at all when the count is 0. -/
def renderedSection (title : String) (count : Nat) (itemLines : List String)
    (trailingBlank : Bool) : List String :=
  if count > 0 then
    ("### " ++ title ++ " (" ++ toString count ++ " total)") ::
      (itemLines ++ (if trailingBlank then [""] else []))
  else []

/-- The error message a failed deal lookup surfaces, per response shape. -/
def lookupErrorMsg : DealLookupResp → Option String
  | .thrown m => some m
  | .httpError m raw => some (m.getD raw)
  | .success _ => none

/-! ### Concrete runs used by counterexamples and witnesses -/

/-- A date oracle for runs whose comparisons never matter. -/
def dpZero : String → Int := fun _ => 0

/-- An inert remote world (everything fails), for runs that must not depend
on it. -/
def trivEnv : HubSpotEnv :=
  { contactResp := .httpError none
    assocResp := fun _ => .failure
    detailResp := fun _ _ => none }

/-- A pre-epoch but perfectly parseable timestamp. -/
def preEpochDate : String := "1960-01-01T00:00:00.000Z"

/-- Date oracle assigning `preEpochDate` its real (negative) time value. -/
def dpC3 : String → Int := fun s => if s = preEpochDate then -315619200000 else 0

/-- A run with one call item lacking `createdAt` and one email item carrying
the pre-epoch timestamp. -/
def envC3 : HubSpotEnv :=
  { contactResp := .success {}
    assocResp := fun t =>
      match t with
      | .calls => .success (some [some "c1"])
      | .emails => .success (some [some "e1"])
      | _ => .failure
    detailResp := fun t engId =>
      match t, engId with
      | .calls, "c1" => some { id := some "c1", properties := some [] }
      | .emails, "e1" =>
          some { id := some "e1", properties := some [("hs_createdate", preEpochDate)] }
      | _, _ => none }

/-- A run whose single fetched item has no timestamp at all. -/
def envC4 : HubSpotEnv :=
  { contactResp := .success {}
    assocResp := fun t =>
      match t with
      | .calls => .success (some [some "c1"])
      | _ => .failure
    detailResp := fun t engId =>
      match t, engId with
      | .calls, "c1" => some { id := some "c1", properties := some [] }
      | _, _ => none }

/-- A run with 12 call associations, of which only the 5 sampled ones have
details fetched. -/
def envW1 : HubSpotEnv :=
  { contactResp := .success
      { id := some "9"
        properties := some
          { email := some "jane@example.com", firstname := some "Jane",
            lastname := some "Doe" } }
    assocResp := fun t =>
      match t with
      | .calls => .success (some ((List.range 12).map (fun n => some (toString (n + 1)))))
      | _ => .failure
    detailResp := fun t engId =>
      match t with
      | .calls => some { id := some engId, properties := some [("hs_createdate", "2024-01-01")] }
      | _ => none }

/-- A run in which every kind has zero associations. -/
def envW2 : HubSpotEnv :=
  { contactResp := .success {}
    assocResp := fun _ => .success (some [])
    detailResp := fun _ _ => none }

/-- A run with two items of equal sort key in different kinds. -/
def envW3 : HubSpotEnv :=
  { contactResp := .success {}
    assocResp := fun t =>
      match t with
      | .calls => .success (some [some "a"])
      | .emails => .success (some [some "b"])
      | _ => .failure
    detailResp := fun t engId =>
      match t, engId with
      | .calls, "a" => some { id := some "a", properties := some [("hs_createdate", "T")] }
      | .emails, "b" => some { id := some "b", properties := some [("hs_createdate", "T")] }
      | _, _ => none }

/-- A run with a resolvable contact and no fetched items at all. -/
def envW4 : HubSpotEnv :=
  { contactResp := .success {}
    assocResp := fun _ => .failure
    detailResp := fun _ _ => none }

/-- Contact data of the fail-soft witness run. -/
def dW5 : ContactData :=
  { id := some "3"
    properties := some { email := some "joe@example.com", firstname := some "Joe" } }

/-- A run in which the meetings association fetch fails while the other kinds
return data. -/
def envW5 : HubSpotEnv :=
  { contactResp := .success dW5
    assocResp := fun t =>
      match t with
      | .meetings => .failure
      | _ => .success (some [some "x1", some "x2"])
    detailResp := fun t engId =>
      match t with
      | .meetings => none
      | _ => some { id := some engId, properties := some [("hs_createdate", "2024-05-05")] }
  }

/-! ### Helper lemmas -/

/-- A result of `getContactActivitySummary` carrying a summary is a run that
reached the success branch, so the summary is the one assembled by
`buildSummaryData`. -/
lemma summary_eq {token : Option String} {cid : String} {env : HubSpotEnv}
    {dp : String → Int} {s : SummaryData}
    (h : (getContactActivitySummary token cid env dp).summary = some s) :
    s = buildSummaryData env dp := by
  unfold getContactActivitySummary at h
  split at h
  · exact Option.noConfusion h
  · split at h
    · exact Option.noConfusion h
    · split at h
      · exact Option.noConfusion h
      · exact Option.noConfusion h
      · exact (Option.some.inj h).symm

/-- A successful contact fetch makes the whole run succeed with the assembled
summary. -/
lemma run_success {token : Option String} {cid : String} {env : HubSpotEnv}
    {dp : String → Int} {d : ContactData}
    (hTok : tokenMissing token = false) (hCid : cid ≠ "")
    (hContact : env.contactResp = .success d) :
    getContactActivitySummary token cid env dp =
      { ok := true
        contactId := d.id
        contactName := some (contactDisplayName d.properties)
        email := d.properties.bind ContactProps.email
        summary := some (buildSummaryData env dp) } := by
  unfold getContactActivitySummary
  rw [hTok, hContact]
  simp [hCid]

/-- The kind-indexed view of the assembled summary is the per-kind loop body. -/
lemma kind_buildSummaryData (env : HubSpotEnv) (dp : String → Int) (t : EngagementType) :
    (buildSummaryData env dp).kind t = processKind env t := by
  cases t <;> rfl

/-- The per-kind loop body only reads the remote world at its own kind. -/
lemma processKind_congr {env₂ env : HubSpotEnv} {t : EngagementType}
    (h1 : env₂.assocResp t = env.assocResp t) (h2 : env₂.detailResp t = env.detailResp t) :
    processKind env₂ t = processKind env t := by
  unfold processKind
  rw [h1, h2]

/-- The total of the assembled summary is the sum of the five association-list
lengths; details never enter it. -/
lemma totalEngagements_build (env : HubSpotEnv) (dp : String → Int) :
    (buildSummaryData env dp).totalEngagements =
      (getContactAssociations (env.assocResp .calls)).length +
      (getContactAssociations (env.assocResp .emails)).length +
      (getContactAssociations (env.assocResp .notes)).length +
      (getContactAssociations (env.assocResp .tasks)).length +
      (getContactAssociations (env.assocResp .meetings)).length := rfl

lemma sortedTimeline_pairwise (env : HubSpotEnv) (dp : String → Int) :
    (sortedTimeline env dp).Pairwise (newerFirst dp) := by
  haveI : IsTotal TimelineItem (newerFirst dp) := ⟨fun _ _ => Int.le_total _ _⟩
  haveI : IsTrans TimelineItem (newerFirst dp) := ⟨fun _ _ _ h1 h2 => le_trans h2 h1⟩
  exact List.sorted_insertionSort _ _

lemma sortedTimeline_perm (env : HubSpotEnv) (dp : String → Int) :
    List.Perm (sortedTimeline env dp) (timelineOf env) :=
  List.perm_insertionSort _ _

/-- A nonempty most-recent marker is never the sentinel. -/
lemma mostRecent_ne_sentinel (x : String) : "Most recent: " ++ x ≠ noActivitySentinel := by
  intro h
  have h1 := congrArg (fun s => s.data.take 2) h
  simp only [String.data_append] at h1
  rw [List.take_append_of_le_length (by decide)] at h1
  exact absurd h1 (by decide)

/-! ### Claims -/

/-- Claim C1: for every run of `getContactActivitySummary` and every
engagement kind, the reported `count` equals the full length of the
association-identifier list returned for that kind, while `items` holds at
most 5 entries (the sample cap) and at most `count` entries. -/
theorem claim1_count_and_cap (token : Option String) (contactId : String)
    (env : HubSpotEnv) (dp : String → Int) (s : SummaryData)
    (h : (getContactActivitySummary token contactId env dp).summary = some s)
    (t : EngagementType) :
    (s.kind t).count = (getContactAssociations (env.assocResp t)).length ∧
    (s.kind t).items.length ≤ 5 ∧
    (s.kind t).items.length ≤ (s.kind t).count := by
  obtain rfl := summary_eq h
  rw [kind_buildSummaryData]
  unfold processKind
  refine ⟨rfl, ?_, ?_⟩
  · exact le_trans (List.length_filterMap_le _ _)
      (by simp [List.length_take])
  · exact le_trans (List.length_filterMap_le _ _)
      (by simp [List.length_take])

/-- Claim C2: the total of a successful summary is the sum of the five
per-kind counts, independent of how many items were detail-fetched, and a
contact with zero associations in every kind totals 0. -/
theorem claim2_total_engagements (token : Option String) (contactId : String)
    (env : HubSpotEnv) (dp : String → Int) (s : SummaryData)
    (h : (getContactActivitySummary token contactId env dp).summary = some s) :
    s.totalEngagements =
      s.calls.count + s.emails.count + s.notes.count + s.tasks.count + s.meetings.count ∧
    ((∀ t, getContactAssociations (env.assocResp t) = []) → s.totalEngagements = 0) ∧
    (∀ (env₂ : HubSpotEnv) (s₂ : SummaryData), env₂.assocResp = env.assocResp →
      (getContactActivitySummary token contactId env₂ dp).summary = some s₂ →
      s₂.totalEngagements = s.totalEngagements) := by
  obtain rfl := summary_eq h
  refine ⟨rfl, ?_, ?_⟩
  · intro h0
    rw [totalEngagements_build, h0, h0, h0, h0, h0]
    rfl
  · intro env₂ s₂ hAssoc h₂
    obtain rfl := summary_eq h₂
    rw [totalEngagements_build, totalEngagements_build, hAssoc]

/-- Claim C5: a transport failure or non-success status on one kind's
association fetch yields an empty sequence rather than an error, and the
overall summary still succeeds with that kind degraded to count 0 and no
items while the other kinds' results are unaffected. -/
theorem claim5_fail_soft (token : Option String) (cid : String) (env : HubSpotEnv)
    (dp : String → Int) (d : ContactData) (k : EngagementType)
    (hTok : tokenMissing token = false) (hCid : cid ≠ "")
    (hContact : env.contactResp = .success d)
    (hFail : env.assocResp k = .failure) :
    getContactAssociations (env.assocResp k) = [] ∧
    (getContactActivitySummary token cid env dp).ok = true ∧
    ∃ s, (getContactActivitySummary token cid env dp).summary = some s ∧
      (s.kind k).count = 0 ∧ (s.kind k).items = [] ∧
      ∀ (env₂ : HubSpotEnv) (s₂ : SummaryData),
        (∀ t, t ≠ k → env₂.assocResp t = env.assocResp t ∧
          env₂.detailResp t = env.detailResp t) →
        (getContactActivitySummary token cid env₂ dp).summary = some s₂ →
        ∀ t, t ≠ k → s₂.kind t = s.kind t := by
  have hRun := @run_success token cid env dp d hTok hCid hContact
  refine ⟨by rw [hFail]; rfl, by rw [hRun], buildSummaryData env dp, by rw [hRun], ?_, ?_, ?_⟩
  · rw [kind_buildSummaryData]
    unfold processKind
    rw [hFail]
    rfl
  · rw [kind_buildSummaryData]
    unfold processKind
    rw [hFail]
    rfl
  · intro env₂ s₂ hAgree h₂ t ht
    obtain rfl := summary_eq h₂
    rw [kind_buildSummaryData, kind_buildSummaryData]
    exact processKind_congr (hAgree t ht).1 (hAgree t ht).2

/-- Claim C1, witness: the 12-association run has `count = 12` and 5 sampled
items, and the theorem's conclusion holds for it at the calls kind. -/
theorem claim1_witness :
    ((getContactActivitySummary (some "tok") "9" envW1 dpZero).summary =
      some (buildSummaryData envW1 dpZero)) ∧
    ((buildSummaryData envW1 dpZero).kind .calls).count = 12 ∧
    ((buildSummaryData envW1 dpZero).kind .calls).items.length = 5 ∧
    (((buildSummaryData envW1 dpZero).kind .calls).count =
        (getContactAssociations (envW1.assocResp .calls)).length ∧
      ((buildSummaryData envW1 dpZero).kind .calls).items.length ≤ 5 ∧
      ((buildSummaryData envW1 dpZero).kind .calls).items.length ≤
        ((buildSummaryData envW1 dpZero).kind .calls).count) :=
  ⟨rfl, by decide, by decide,
    claim1_count_and_cap (some "tok") "9" envW1 dpZero _ rfl .calls⟩

/-- Claim C2, witness: the zero-association run totals 0. -/
theorem claim2_witness :
    ((getContactActivitySummary (some "tok") "7" envW2 dpZero).summary =
      some (buildSummaryData envW2 dpZero)) ∧
    (∀ t, getContactAssociations (envW2.assocResp t) = []) ∧
    (buildSummaryData envW2 dpZero).totalEngagements = 0 :=
  ⟨rfl, fun t => by cases t <;> rfl,
    (claim2_total_engagements (some "tok") "7" envW2 dpZero _ rfl).2.1
      (fun t => by cases t <;> rfl)⟩

/-- Claim C5, witness: the meetings outage degrades to an empty meetings
summary while the run succeeds. -/
theorem claim5_witness :
    getContactAssociations (envW5.assocResp .meetings) = [] ∧
    (getContactActivitySummary (some "tok") "3" envW5 dpZero).ok = true ∧
    ∃ s, (getContactActivitySummary (some "tok") "3" envW5 dpZero).summary = some s ∧
      (s.kind .meetings).count = 0 ∧ (s.kind .meetings).items = [] ∧
      ∀ (env₂ : HubSpotEnv) (s₂ : SummaryData),
        (∀ t, t ≠ EngagementType.meetings → env₂.assocResp t = envW5.assocResp t ∧
          env₂.detailResp t = envW5.detailResp t) →
        (getContactActivitySummary (some "tok") "3" env₂ dpZero).summary = some s₂ →
        ∀ t, t ≠ EngagementType.meetings → s₂.kind t = s.kind t :=
  claim5_fail_soft (some "tok") "3" envW5 dpZero dW5 .meetings rfl (by decide) rfl rfl

/-- Claim C7: normalization is total by construction; a raw record whose
property map holds only `hs_createdate` yields a record with `createdAt` set
and every other optional field unset, for every kind; and notes never
receive a subject. -/
theorem claim7_normalization_total :
    (∀ (t : EngagementType) (v : String) (idv : Option String),
      extractEngagementInfo t { id := idv, properties := some [("hs_createdate", v)] } =
        { id := idv.getD "", createdAt := some v }) ∧
    (∀ data : RawRecord, (extractEngagementInfo .notes data).subject = none) := by
  constructor
  · intro t v idv
    cases t <;> rfl
  · intro data
    rfl

/-- Claim C3 is false as stated: an item with an absent `createdAt` is keyed
as the epoch (0), not the minimum, so with a parseable pre-epoch timestamp
present the absent-timestamp item sorts as the NEWEST.  Here the sorted list
has the absent-timestamp call first and the 1960 email after it, refuting
"every item with an absent or unparseable createdAt sorts as the oldest"
(absent items would have to form a suffix of the descending list). -/
theorem claim3_counterexample :
    sortedTimeline envC3 dpC3 =
      [{ type := .calls, createdAt := none },
       { type := .emails, createdAt := some preEpochDate }] ∧
    dpC3 preEpochDate < 0 ∧
    ¬ (sortedTimeline envC3 dpC3).Pairwise
        (fun a b => a.createdAt = none → b.createdAt = none) := by
  refine ⟨by decide, by decide, ?_⟩
  intro h
  rw [show sortedTimeline envC3 dpC3 =
      [{ type := .calls, createdAt := none },
       { type := .emails, createdAt := some preEpochDate }] from by decide] at h
  exact absurd h (by decide)

/-- Claim C3 amended: the merged list is stably sorted descending by the sort
key, where a falsy `createdAt` (absent or empty) is keyed as the epoch (0) —
not as the minimum — and ties (equal keys) preserve the per-kind processing
order; runs are modelled with every present timestamp parseable, since an
unparseable one makes the JavaScript comparator inconsistent and the order
implementation-defined. -/
theorem claim3_sorted_stable (env : HubSpotEnv) (dp : String → Int) :
    (sortedTimeline env dp).Pairwise (newerFirst dp) ∧
    List.Perm (sortedTimeline env dp) (timelineOf env) ∧
    ∀ a b : TimelineItem, newerFirst dp a b → List.Sublist [a, b] (timelineOf env) →
      List.Sublist [a, b] (sortedTimeline env dp) :=
  ⟨sortedTimeline_pairwise env dp, sortedTimeline_perm env dp,
    fun _ _ hab hsub => List.pair_sublist_insertionSort hab hsub⟩

/-- Claim C3 amended, witness: two equal-key items in calls and emails keep
their per-kind order in the sorted output. -/
theorem claim3_witness :
    newerFirst dpZero { type := .calls, createdAt := some "T" }
      { type := .emails, createdAt := some "T" } ∧
    List.Sublist [{ type := .calls, createdAt := some "T" },
      ({ type := .emails, createdAt := some "T" } : TimelineItem)] (timelineOf envW3) ∧
    List.Sublist [{ type := .calls, createdAt := some "T" },
      ({ type := .emails, createdAt := some "T" } : TimelineItem)]
      (sortedTimeline envW3 dpZero) :=
  ⟨by decide, by decide,
    (claim3_sorted_stable envW3 dpZero).2.2 _ _ (by decide) (by decide)⟩

/-- Claim C4 is false as stated: in a run whose single fetched item has no
timestamp at all (so no item has a parseable `createdAt`), the marker is not
the sentinel but "Most recent: calls on unknown date" — the sentinel appears
exactly when the combined list is empty, which is not equivalent to "no item
has a parseable timestamp". -/
theorem claim4_counterexample :
    ((getContactActivitySummary (some "tok") "1" envC4 dpZero).summary =
      some (buildSummaryData envC4 dpZero)) ∧
    (∀ i ∈ timelineOf envC4, i.createdAt = none) ∧
    (buildSummaryData envC4 dpZero).recentActivity = "Most recent: calls on unknown date" ∧
    ¬ (((buildSummaryData envC4 dpZero).recentActivity = noActivitySentinel) ↔
        (∀ i ∈ timelineOf envC4, i.createdAt = none)) := by
  refine ⟨rfl, by decide, by decide, ?_⟩
  intro h
  exact absurd (h.mpr (by decide)) (by decide)

/-- Claim C4 amended: the marker is the sentinel exactly when the combined
list is empty, and otherwise it names the head of the sorted combined list —
the item maximizing the sort key (absent timestamps keyed as the epoch), not
necessarily the one with the latest parseable `createdAt`. -/
theorem claim4_recent_activity (token : Option String) (cid : String)
    (env : HubSpotEnv) (dp : String → Int) (s : SummaryData)
    (h : (getContactActivitySummary token cid env dp).summary = some s) :
    (s.recentActivity = noActivitySentinel ↔ timelineOf env = []) ∧
    ∀ a l, sortedTimeline env dp = a :: l →
      s.recentActivity =
        "Most recent: " ++ engagementTypeName a.type ++ " on " ++
          a.createdAt.getD "unknown date" ∧
      ∀ b ∈ timelineOf env, sortKey dp b.createdAt ≤ sortKey dp a.createdAt := by
  obtain rfl := summary_eq h
  have hperm := sortedTimeline_perm env dp
  constructor
  · show recentActivityText (sortedTimeline env dp) = noActivitySentinel ↔ _
    cases hl : sortedTimeline env dp with
    | nil =>
        rw [hl] at hperm
        simp [recentActivityText, List.Perm.nil_eq hperm]
    | cons a l =>
        rw [hl] at hperm
        constructor
        · intro hEq
          exact absurd hEq (mostRecent_ne_sentinel _)
        · intro hEmpty
          rw [hEmpty] at hperm
          exact absurd hperm.length_eq (by simp)
  · intro a l hl
    constructor
    · show recentActivityText (sortedTimeline env dp) = _
      rw [hl]
      rfl
    · intro b hb
      have hbSorted : b ∈ sortedTimeline env dp := hperm.mem_iff.mpr hb
      rw [hl] at hbSorted
      rcases List.mem_cons.mp hbSorted with hba | hbl
      · rw [hba]
      · have hp := sortedTimeline_pairwise env dp
        rw [hl] at hp
        exact (List.pairwise_cons.mp hp).1 b hbl

/-- Claim C4 amended, witness: the empty run yields the sentinel, and the iff
instance delivered by the theorem holds for it. -/
theorem claim4_witness :
    ((getContactActivitySummary (some "tok") "1" envW4 dpZero).summary =
      some (buildSummaryData envW4 dpZero)) ∧
    (buildSummaryData envW4 dpZero).recentActivity = noActivitySentinel ∧
    ((buildSummaryData envW4 dpZero).recentActivity = noActivitySentinel ↔
      timelineOf envW4 = []) :=
  ⟨rfl, by decide,
    (claim4_recent_activity (some "tok") "1" envW4 dpZero _ rfl).1⟩

/-- Claim C6: with no token configured, every entry point returns the
`ok := false` envelope whose error names the missing token, and the result
does not depend on any remote response — no network call is observable. -/
theorem claim6_missing_token (token : Option String) (h : tokenMissing token = true)
    (cid : String) (env : HubSpotEnv) (dp : String → Int)
    (inputC : CreateContactInput) (respC : MutationResp)
    (inputU : UpdateContactInput) (respU : MutationResp)
    (inputD : UpdateDealStageInput) (respD : MutationResp)
    (respP : PipelinesResp) (em : String) (respS : SearchResp) :
    getContactActivitySummary token cid env dp =
      { ok := false, error := some missingTokenMessage } ∧
    createContact token inputC respC = { ok := false, error := some missingTokenMessage } ∧
    updateContact token inputU respU = { ok := false, error := some missingTokenMessage } ∧
    updateDealStage token inputD respD = { ok := false, error := some missingTokenMessage } ∧
    getDealPipelines token respP = { ok := false, error := some missingTokenMessage } ∧
    searchContactByEmail token em respS = { ok := false, error := some missingTokenMessage } ∧
    List.IsInfix "HUBSPOT_PRIVATE_APP_TOKEN".data missingTokenMessage.data := by
  refine ⟨?_, ?_, ?_, ?_, ?_, ?_, ⟨"Missing ".data, " in environment.".data, by decide⟩⟩ <;>
    simp [getContactActivitySummary, createContact, updateContact, updateDealStage,
      getDealPipelines, searchContactByEmail, h]

/-- Claim C6, witness: the unset token yields the missing-token envelope at
concrete inputs. -/
theorem claim6_witness :
    tokenMissing none = true ∧
    (getContactActivitySummary none "1" trivEnv dpZero =
      { ok := false, error := some missingTokenMessage } ∧
    createContact none {} (.thrown "x") = { ok := false, error := some missingTokenMessage } ∧
    updateContact none { contactId := "1" } (.thrown "x") =
      { ok := false, error := some missingTokenMessage } ∧
    updateDealStage none { dealId := "1", dealstage := "s" } (.thrown "x") =
      { ok := false, error := some missingTokenMessage } ∧
    getDealPipelines none (.thrown "x") = { ok := false, error := some missingTokenMessage } ∧
    searchContactByEmail none "a@b.c" (.thrown "x") =
      { ok := false, error := some missingTokenMessage } ∧
    List.IsInfix "HUBSPOT_PRIVATE_APP_TOKEN".data missingTokenMessage.data) :=
  ⟨rfl, claim6_missing_token none rfl "1" trivEnv dpZero {} (.thrown "x")
    { contactId := "1" } (.thrown "x") { dealId := "1", dealstage := "s" } (.thrown "x")
    (.thrown "x") "a@b.c" (.thrown "x")⟩

/-- Claim C8: the rendered summary text is the newline-join of a fixed header
block (name/email header, total line, most-recent line) followed by one
section per kind in the fixed order calls, emails, meetings, tasks, notes,
with at most 3 items for calls/emails/meetings/tasks and at most 2 notes,
note bodies truncated to 100 characters with an ellipsis marker when longer,
and no section for a kind whose count is 0; the function is pure, hence
deterministic. -/
theorem claim8_render_format (r : ContactActivitySummaryResult) (s : SummaryData) :
    generateActivitySummaryText { r with summary := some s } =
      String.intercalate "\n" (activityLines { r with summary := some s } s) ∧
    (activityLines { r with summary := some s } s).take 5 =
      ["## Activity Summary for " ++ orFalsy r.contactName "Unknown" ++ " (" ++
          orFalsy r.email "no email" ++ ")",
        "",
        "**Total Engagements:** " ++ toString s.totalEngagements,
        "**" ++ s.recentActivity ++ "**",
        ""] ∧
    (activityLines { r with summary := some s } s).drop 5 =
      renderedSection "Calls" s.calls.count ((s.calls.items.take 3).map formatCallLine)
          true ++
        renderedSection "Emails" s.emails.count
          ((s.emails.items.take 3).map formatEmailLine) true ++
        renderedSection "Meetings" s.meetings.count
          ((s.meetings.items.take 3).map formatMeetingLine) true ++
        renderedSection "Tasks" s.tasks.count ((s.tasks.items.take 3).map formatTaskLine)
          true ++
        renderedSection "Notes" s.notes.count ((s.notes.items.take 2).map formatNoteLine)
          false ∧
    (∀ (title : String) (itemLines : List String) (b : Bool),
      renderedSection title 0 itemLines b = []) ∧
    (∀ (note : EngagementInfo) (bdy : String), bdy ≠ "" →
      formatNoteLine { note with body := some bdy } =
        "- " ++ bdy.take 100 ++ (if bdy.length > 100 then "..." else "")) := by
  have hdecomp : activityLines { r with summary := some s } s =
      ["## Activity Summary for " ++ orFalsy r.contactName "Unknown" ++ " (" ++
          orFalsy r.email "no email" ++ ")",
        "",
        "**Total Engagements:** " ++ toString s.totalEngagements,
        "**" ++ s.recentActivity ++ "**",
        ""] ++
      (renderedSection "Calls" s.calls.count ((s.calls.items.take 3).map formatCallLine)
          true ++
        renderedSection "Emails" s.emails.count
          ((s.emails.items.take 3).map formatEmailLine) true ++
        renderedSection "Meetings" s.meetings.count
          ((s.meetings.items.take 3).map formatMeetingLine) true ++
        renderedSection "Tasks" s.tasks.count ((s.tasks.items.take 3).map formatTaskLine)
          true ++
        renderedSection "Notes" s.notes.count ((s.notes.items.take 2).map formatNoteLine)
          false) := by
    unfold activityLines renderedSection
    simp
  refine ⟨rfl, ?_, ?_, fun _ _ _ => rfl, ?_⟩
  · rw [hdecomp]
    exact List.take_left' rfl
  · rw [hdecomp]
    exact List.drop_left' rfl
  · intro note bdy hb
    have htake : ¬ bdy.take 100 = "" := by
      intro hEq
      have h2 : bdy.data.take 100 = [] := by
        have h3 := String.ext_iff.mp hEq
        simpa [String.data_take] using h3
      rcases List.take_eq_nil_iff.mp h2 with h100 | hnil
      · exact absurd h100 (by decide)
      · exact hb (String.ext hnil)
    show ("- " ++ (if bdy.take 100 = "" then "No content" else bdy.take 100) ++
        (if bdy ≠ "" ∧ bdy.length > 100 then "..." else "")) =
      "- " ++ bdy.take 100 ++ (if bdy.length > 100 then "..." else "")
    rw [if_neg htake]
    have hcond : (bdy ≠ "" ∧ bdy.length > 100) ↔ bdy.length > 100 := and_iff_right hb
    by_cases h100 : bdy.length > 100
    · rw [if_pos (hcond.mpr h100), if_pos h100]
    · rw [if_neg (fun hc => h100 (hcond.mp hc)), if_neg h100]

/-- Claim C8, witness: the truncation clause at a concrete 101-character
body, and the join equation at a concrete result. -/
theorem claim8_witness :
    (let bdyW := String.mk (List.replicate 101 'x')
    bdyW ≠ "" ∧
      formatNoteLine { id := "n", body := some bdyW } =
        "- " ++ bdyW.take 100 ++ (if bdyW.length > 100 then "..." else "")) ∧
    generateActivitySummaryText
        { ok := true, contactName := some "Jane Doe", email := some "jane@example.com",
          summary := some (buildSummaryData envW2 dpZero) } =
      String.intercalate "\n"
        (activityLines
          { ok := true, contactName := some "Jane Doe", email := some "jane@example.com",
            summary := some (buildSummaryData envW2 dpZero) }
          (buildSummaryData envW2 dpZero)) :=
  ⟨⟨by decide,
    (claim8_render_format
      { ok := true, contactName := some "Jane Doe", email := some "jane@example.com" }
      (buildSummaryData envW2 dpZero)).2.2.2.2
      { id := "n", body := some (String.mk (List.replicate 101 'x')) }
      (String.mk (List.replicate 101 'x')) (by decide)⟩,
   (claim8_render_format
      { ok := true, contactName := some "Jane Doe", email := some "jane@example.com" }
      (buildSummaryData envW2 dpZero)).1⟩

/-- Claim C9: with a token configured, the deal-stage tool is gated on the
deal lookup — a failed lookup yields an `ok := false` envelope naming the
unresolvable deal and the result does not depend on the PATCH response (no
PATCH is observable, so the stage is never modified); a successful lookup
followed by a successful PATCH carries the pre-update deal as
`previousDeal`. -/
theorem claim9_deal_lookup_gate (token : Option String) (input : UpdateDealStageInput)
    (lk : DealLookupResp) (p : MutationResp) (hTok : tokenMissing token = false) :
    (∀ e, lookupErrorMsg lk = some e →
      updateDealStageToolExecute token input lk p =
        { ok := false,
          error := some ("Could not find deal with ID " ++ input.dealId ++ ": " ++ e) } ∧
      ∀ p₂, updateDealStageToolExecute token input lk p =
        updateDealStageToolExecute token input lk p₂) ∧
    (∀ deal idv props, lk = .success deal → p = .success idv props →
      (updateDealStageToolExecute token input lk p).ok = true ∧
      (updateDealStageToolExecute token input lk p).previousDeal = some deal) := by
  constructor
  · intro e he
    cases lk with
    | thrown m =>
        refine ⟨?_, fun p₂ => ?_⟩ <;>
          simp_all [updateDealStageToolExecute, getDealById, lookupErrorMsg, hTok]
    | httpError m raw =>
        refine ⟨?_, fun p₂ => ?_⟩ <;>
          simp_all [updateDealStageToolExecute, getDealById, lookupErrorMsg, hTok]
    | success deal => exact absurd he (by simp [lookupErrorMsg])
  · intro deal idv props hlk hp
    subst hlk; subst hp
    constructor <;> simp [updateDealStageToolExecute, getDealById, hTok]

/-- Claim C9, witness: a thrown lookup at deal 42 yields the gating envelope
independent of the PATCH response, and a successful lookup and PATCH carry
the pre-update deal. -/
theorem claim9_witness :
    (updateDealStageToolExecute (some "tok") { dealId := "42", dealstage := "closedwon" }
        (.thrown "ECONNRESET") (.success (some "42") none) =
      { ok := false,
        error := some ("Could not find deal with ID " ++ "42" ++ ": " ++ "ECONNRESET") } ∧
      ∀ p₂, updateDealStageToolExecute (some "tok")
          { dealId := "42", dealstage := "closedwon" } (.thrown "ECONNRESET")
          (.success (some "42") none) =
        updateDealStageToolExecute (some "tok") { dealId := "42", dealstage := "closedwon" }
          (.thrown "ECONNRESET") p₂) ∧
    ((updateDealStageToolExecute (some "tok") { dealId := "42", dealstage := "closedwon" }
        (.success [("dealstage", "qualifiedtobuy")]) (.success (some "42") none)).ok = true ∧
      (updateDealStageToolExecute (some "tok") { dealId := "42", dealstage := "closedwon" }
        (.success [("dealstage", "qualifiedtobuy")]) (.success (some "42") none)).previousDeal =
        some [("dealstage", "qualifiedtobuy")]) :=
  ⟨(claim9_deal_lookup_gate (some "tok") { dealId := "42", dealstage := "closedwon" }
      (.thrown "ECONNRESET") (.success (some "42") none) rfl).1 "ECONNRESET" rfl,
   (claim9_deal_lookup_gate (some "tok") { dealId := "42", dealstage := "closedwon" }
      (.success [("dealstage", "qualifiedtobuy")]) (.success (some "42") none) rfl).2
      [("dealstage", "qualifiedtobuy")] (some "42") none rfl rfl⟩

/-- Claim C10: with a token configured, the chat tool searches first; a
successful search that finds a contact returns the already-exists envelope
with that contact's id and the result does not depend on the create response
(no create request is observable); a successful search with zero results is
`ok`, not an error, and the tool proceeds to create with a properties object
that always includes the email. -/
theorem claim10_duplicate_check (token : Option String)
    (input : CreateContactFromChatInput) (searchResp : ChatSearchResp)
    (createResp createResp₂ : List (String × String) → ChatCreateResp)
    (hTok : tokenMissing token = false) :
    (∀ (hit : SearchHit) (rest : List SearchHit) (cid : String),
      searchResp = .http true (some (hit :: rest)) → hit.id = some cid → cid ≠ "" →
      createContactFromChatExecute token input searchResp createResp =
        { ok := true, alreadyExists := some true, contactId := some cid,
          message := some
            ("Contact with email " ++ input.email ++ " already exists in HubSpot"),
          contact := some hit } ∧
      createContactFromChatExecute token input searchResp createResp =
        createContactFromChatExecute token input searchResp createResp₂) ∧
    (∀ results, (chatToolSearch (.http true results)).ok = true) ∧
    (∀ resOk, searchResp = .http resOk (some []) →
      createContactFromChatExecute token input searchResp createResp =
        chatCreatePath input (chatToolCreate (createResp (chatProperties input)))) ∧
    ("email", input.email) ∈ chatProperties input := by
  refine ⟨?_, ?_, ?_, List.mem_cons_self _ _⟩
  · intro hit rest cid hsr hid hcid
    subst hsr
    constructor <;>
      simp [createContactFromChatExecute, chatToolSearch, hTok, hid, truthy, hcid]
  · intro results
    unfold chatToolSearch
    match results with
    | some (hit :: rest) => simp
    | some [] => rfl
    | none => rfl
  · intro resOk hsr
    subst hsr
    cases resOk <;> simp [createContactFromChatExecute, chatToolSearch, hTok, truthy]

/-- Claim C10, witness: a found contact short-circuits creation at a concrete
input, and a zero-result search proceeds to create with the email amongst
the properties. -/
theorem claim10_witness :
    (createContactFromChatExecute (some "tok") { email := "sarah@company.com" }
        (.http true (some [{ id := some "77" }])) (fun _ => .thrown "unused") =
      { ok := true, alreadyExists := some true, contactId := some "77",
        message := some
          ("Contact with email " ++ "sarah@company.com" ++ " already exists in HubSpot"),
        contact := some { id := some "77" } } ∧
      createContactFromChatExecute (some "tok") { email := "sarah@company.com" }
          (.http true (some [{ id := some "77" }])) (fun _ => .thrown "unused") =
        createContactFromChatExecute (some "tok") { email := "sarah@company.com" }
          (.http true (some [{ id := some "77" }])) (fun _ => .thrown "other")) ∧
    (createContactFromChatExecute (some "tok") { email := "sarah@company.com" }
        (.http true (some [])) (fun _ => .success (some "88") none) =
      chatCreatePath { email := "sarah@company.com" }
        (chatToolCreate ((fun _ => ChatCreateResp.success (some "88") none)
          (chatProperties { email := "sarah@company.com" })))) ∧
    ("email", "sarah@company.com") ∈ chatProperties { email := "sarah@company.com" } :=
  ⟨(claim10_duplicate_check (some "tok") { email := "sarah@company.com" }
      (.http true (some [{ id := some "77" }])) (fun _ => .thrown "unused")
      (fun _ => .thrown "other") rfl).1 { id := some "77" } [] "77" rfl rfl (by decide),
   (claim10_duplicate_check (some "tok") { email := "sarah@company.com" }
      (.http true (some [])) (fun _ => .success (some "88") none)
      (fun _ => .thrown "other") rfl).2.2.1 true rfl,
   (claim10_duplicate_check (some "tok") { email := "sarah@company.com" }
      (.http true (some [])) (fun _ => .success (some "88") none)
      (fun _ => .thrown "other") rfl).2.2.2⟩

end HubSpotCRM
